import Mathlib

/-!
Verification of the configuration-to-pipeline compiler and its
test-generation subsystem (command extractor, command signature,
matrix generator) of the expo-react-native-cicd repository.

The command extractor (`command-extractor.ts`), the execution-harness
result predicate (`allPassed` in `command-runner.ts`) and the matrix
generator (`matrix-generator.ts`) are embedded faithfully from their
TypeScript sources.  The pipeline compiler (`generateWorkflowYaml` in
`webapp/app/utils/workflowGenerator.ts`) is not among the provided
sources — only its test-suites and one example output are — so it is
modelled from the specification, producing the workflow document as an
abstract syntax tree (the YAML render/parse round-trip performed by the
extractor is the identity on this tree).
-/

namespace CICD

/-- Package manager axis of a configuration. -/
inductive PackageManager
  | yarn
  | npm
  | pnpm
deriving DecidableEq

/-- Storage / distribution axis of a configuration. -/
inductive StorageType
  | githubRelease
  | zohoDrive
  | googleDrive
  | custom
deriving DecidableEq

/-- Static test kinds selectable in `tests`. -/
inductive TestKind
  | typescript
  | eslint
  | prettier
deriving DecidableEq

/-- Build types selectable in `buildTypes`. -/
inductive BuildType
  | dev
  | prodApk
  | prodAab
deriving DecidableEq

/-- Workflow triggers selectable in `triggers`. -/
inductive TriggerKind
  | pushMain
  | pullRequest
  | manual
deriving DecidableEq

/-- Notification channel choice in the advanced options. -/
inductive NotificationType
  | slack
  | discord
  | both
deriving DecidableEq

/-- `AdvancedOptions` of `webapp/app/types.ts` (the extractor re-export
additionally carries the optional `notificationType`). -/
structure AdvancedOptions where
  iOSSupport : Bool
  publishToExpo : Bool
  publishToStores : Bool
  jestTests : Bool
  rntlTests : Bool
  renderHookTests : Bool
  caching : Bool
  notifications : Bool
  notificationType : Option NotificationType := none
deriving DecidableEq

/-- `FormValues` restricted to the declared configuration domain: the
fields the compiler consumes, with the enumerated value sets of the
specification.  `packageManager` and `advancedOptions` are optional in
the TypeScript interface, hence `Option` here. -/
structure FormValues where
  packageManager : Option PackageManager := none
  storageType : StorageType
  buildTypes : List BuildType
  tests : List TestKind
  triggers : List TriggerKind
  advancedOptions : Option AdvancedOptions := none
deriving DecidableEq

/-- Effective package manager: `yarn` when unset (the generator and the
matrix fixture rule both default to yarn). -/
def FormValues.pm (c : FormValues) : PackageManager :=
  c.packageManager.getD .yarn

/-- Effective `jestTests` flag (false when `advancedOptions` is unset). -/
def FormValues.jestTests (c : FormValues) : Bool :=
  (c.advancedOptions.map AdvancedOptions.jestTests).getD false

/-- Effective `rntlTests` flag (false when `advancedOptions` is unset). -/
def FormValues.rntlTests (c : FormValues) : Bool :=
  (c.advancedOptions.map AdvancedOptions.rntlTests).getD false

/-- Effective `renderHookTests` flag (false when `advancedOptions` is unset). -/
def FormValues.renderHookTests (c : FormValues) : Bool :=
  (c.advancedOptions.map AdvancedOptions.renderHookTests).getD false

/-- Effective `caching` flag (true when `advancedOptions` is unset:
the generator test-suite pins that caching defaults to on). -/
def FormValues.caching (c : FormValues) : Bool :=
  (c.advancedOptions.map AdvancedOptions.caching).getD true

/-- Effective `iOSSupport` flag (false when `advancedOptions` is unset). -/
def FormValues.iOSSupport (c : FormValues) : Bool :=
  (c.advancedOptions.map AdvancedOptions.iOSSupport).getD false

/-- Effective `publishToExpo` flag (false when `advancedOptions` is unset). -/
def FormValues.publishToExpo (c : FormValues) : Bool :=
  (c.advancedOptions.map AdvancedOptions.publishToExpo).getD false

/-- Effective `publishToStores` flag (false when `advancedOptions` is unset). -/
def FormValues.publishToStores (c : FormValues) : Bool :=
  (c.advancedOptions.map AdvancedOptions.publishToStores).getD false

/-- Effective `notifications` flag (false when `advancedOptions` is unset). -/
def FormValues.notifications (c : FormValues) : Bool :=
  (c.advancedOptions.map AdvancedOptions.notifications).getD false

/-! ### Character-list string primitives

The extractor classifies commands with JavaScript `String.includes`,
`trim`, `toLowerCase` and two regular expressions.  These are modelled
on the character lists underlying `String`, which keeps every operation
structurally recursive and kernel-reducible.  All strings involved are
ASCII, where the JavaScript and Lean notions of lower-casing and of
lexicographic order coincide. -/

/-- Does the first list start with the second one? -/
def leadsWith : List Char → List Char → Bool
  | _, [] => true
  | [], _ :: _ => false
  | c :: cs, d :: ds => c == d && leadsWith cs ds

/-- Substring containment on character lists (naive scan). -/
def charsContain (hay needle : List Char) : Bool :=
  match hay with
  | [] => needle.isEmpty
  | _ :: t => leadsWith hay needle || charsContain t needle

/-- JavaScript `hay.includes(needle)`. -/
def strContains (hay needle : String) : Bool :=
  charsContain hay.data needle.data

/-- JavaScript `s.toLowerCase()` (ASCII-faithful). -/
def jsLower (s : String) : String :=
  ⟨s.data.map Char.toLower⟩

/-- JavaScript `s.trim()` (ASCII-faithful). -/
def jsTrim (s : String) : String :=
  ⟨((s.data.dropWhile Char.isWhitespace).reverse.dropWhile Char.isWhitespace).reverse⟩

/-- Split a character list at newline characters. -/
def splitLinesAux : List Char → List Char → List (List Char)
  | [], acc => [acc.reverse]
  | c :: cs, acc =>
    if c == '\n' then acc.reverse :: splitLinesAux cs []
    else splitLinesAux cs (c :: acc)

/-- The lines of a string (the view the `m` regex flag takes). -/
def strLines (s : String) : List String :=
  (splitLinesAux s.data []).map fun cs => ⟨cs⟩

/-- The literal marker `${{` opening a GitHub Actions expression. -/
def ghaOpen : String := "$\x7b\x7b"

/-- The literal marker `}}` closing a GitHub Actions expression. -/
def ghaClose : String := "\x7d\x7d"

/-- Scan one line for an occurrence of `${{` followed by `}}`. -/
def ghaScan : List Char → Bool
  | [] => false
  | c :: t =>
    (leadsWith (c :: t) ghaOpen.data && charsContain t ghaClose.data) || ghaScan t

/-- `hasGHAExpressions` of `command-extractor.ts`: the regex
`/\$\{\{.*?\}\}/` (without the `s` flag, so both markers sit on one
line). -/
def hasGHAExpressions (command : String) : Bool :=
  (strLines command).any fun ln => ghaScan ln.data

/-! ### Extracted commands -/

/-- Command categories assigned by the extractor. -/
inductive Category
  | install
  | typecheck
  | lint
  | format
  | jest
  | rntl
  | hooks
  | cacheDir
  | easInstall
  | build
  | other
deriving DecidableEq

/-- The literal string of each category used in signatures. -/
def Category.str : Category → String
  | .install => "install"
  | .typecheck => "typecheck"
  | .lint => "lint"
  | .format => "format"
  | .jest => "jest"
  | .rntl => "rntl"
  | .hooks => "hooks"
  | .cacheDir => "cache-dir"
  | .easInstall => "eas-install"
  | .build => "build"
  | .other => "other"

/-- `ExtractedCommand` of `command-extractor.ts`. -/
structure ExtractedCommand where
  stepName : String
  command : String
  category : Category
  hasGHAExpressions : Bool
deriving DecidableEq

/-- `categorizeCommand` of `command-extractor.ts`: the ordered heuristic
cascade over the lower-cased step name and command text.  The install
branch models the multiline regex
`/^(yarn install|npm install|pnpm install)$/m` on the trimmed command. -/
def categorizeCommand (stepName command : String) : Category :=
  let lower := jsLower command
  let nameLower := jsLower stepName
  if strContains nameLower "install dependencies"
      || ((strLines (jsTrim command)).any fun l =>
            l == "yarn install" || l == "npm install" || l == "pnpm install") then
    .install
  else if strContains nameLower "typescript" || strContains lower "tsc"
      || strContains lower "typecheck" || strContains lower "type-check" then
    .typecheck
  else if strContains nameLower "eslint" || strContains lower "eslint"
      || strContains lower "run lint" then
    .lint
  else if strContains nameLower "prettier" || strContains lower "prettier"
      || strContains lower "format:check" then
    .format
  else if strContains nameLower "renderhook" || strContains lower "test:hooks" then
    .hooks
  else if strContains nameLower "react native testing library"
      || strContains lower "test:rntl" then
    .rntl
  else if strContains nameLower "jest"
      || (strContains nameLower "test" && !strContains nameLower "rntl"
          && !strContains nameLower "hook"
          && !strContains nameLower "react native testing") then
    if strContains lower "test:rntl" then .rntl
    else if strContains lower "test:hooks" then .hooks
    else .jest
  else if strContains nameLower "cache directory" || strContains lower "cache dir"
      || strContains lower "npm config get cache"
      || strContains lower "pnpm store path" then
    .cacheDir
  else if strContains lower "eas-cli" || strContains lower "yarn global add eas"
      || strContains lower "npm install -g eas"
      || strContains lower "pnpm add -g eas" then
    .easInstall
  else if strContains lower "eas build" || strContains lower "eas submit" then
    .build
  else
    .other

/-! ### Pipeline documents

The workflow document as the abstract tree the extractor walks after
the YAML round-trip.  A step carries either an external action
reference (`uses`) or a shell command (`run`), never both — the XOR
invariant of the specification is baked into the type. -/

/-- A step is exactly one of an action invocation or a shell command. -/
inductive StepAct
  | uses (action : String)
  | run (cmd : String)
deriving DecidableEq

/-- One workflow step: optional display name and id, plus its action. -/
structure Step where
  name : Option String := none
  id : Option String := none
  act : StepAct
deriving DecidableEq

/-- One workflow job. -/
structure Job where
  runsOn : String := "ubuntu-latest"
  needs : Option String := none
  steps : List Step
deriving DecidableEq

/-- A compiled pipeline document: name, trigger keys, environment/secret
names, and the ordered job map. -/
structure Workflow where
  name : String
  triggers : List String
  env : List String
  jobs : List (String × Job)
deriving DecidableEq

/-! ### Package-manager command table (section 4.1 of the spec) -/

/-- Dependency-install command. -/
def pmInstall : PackageManager → String
  | .yarn => "yarn install"
  | .npm => "npm install"
  | .pnpm => "pnpm install"

/-- Cache-directory query command of the cache-dir step. -/
def pmCacheDirCmd : PackageManager → String
  | .yarn => "echo \"dir=$(yarn cache dir)\" >> $GITHUB_OUTPUT"
  | .npm => "echo \"dir=$(npm config get cache)\" >> $GITHUB_OUTPUT"
  | .pnpm => "echo \"dir=$(pnpm store path)\" >> $GITHUB_OUTPUT"

/-- Display name of the cache-dir step. -/
def pmCacheDirName : PackageManager → String
  | .yarn => "Get yarn cache directory path"
  | .npm => "Get npm cache directory path"
  | .pnpm => "Get pnpm cache directory path"

/-- Step id of the cache-dir step. -/
def pmCacheDirId : PackageManager → String
  | .yarn => "yarn-cache-dir-path"
  | .npm => "npm-cache-dir-path"
  | .pnpm => "pnpm-cache-dir-path"

/-- Display name of the cache-restore step. -/
def pmCacheSetupName : PackageManager → String
  | .yarn => "Setup yarn cache"
  | .npm => "Setup npm cache"
  | .pnpm => "Setup pnpm cache"

/-- Type-check command. -/
def pmTsc : PackageManager → String
  | .yarn => "yarn tsc"
  | .npm => "npx tsc"
  | .pnpm => "pnpm tsc"

/-- Lint command. -/
def pmLint : PackageManager → String
  | .yarn => "yarn lint"
  | .npm => "npm run lint"
  | .pnpm => "pnpm lint"

/-- Format-check command. -/
def pmFormat : PackageManager → String
  | .yarn => "yarn format:check"
  | .npm => "npm run format:check"
  | .pnpm => "pnpm format:check"

/-- Unit-test (Jest) command. -/
def pmJest : PackageManager → String
  | .yarn => "yarn test"
  | .npm => "npm test"
  | .pnpm => "pnpm test"

/-- RNTL-test command. -/
def pmRntl : PackageManager → String
  | .yarn => "yarn test:rntl"
  | .npm => "npm run test:rntl"
  | .pnpm => "pnpm test:rntl"

/-- Hook-test command. -/
def pmHooks : PackageManager → String
  | .yarn => "yarn test:hooks"
  | .npm => "npm run test:hooks"
  | .pnpm => "pnpm test:hooks"

/-- Global EAS-CLI install command. -/
def pmGlobalEas : PackageManager → String
  | .yarn => "yarn global add eas-cli@latest"
  | .npm => "npm install -g eas-cli@latest"
  | .pnpm => "pnpm add -g eas-cli@latest"

/-! ### Modelled pipeline compiler -/

/-- A test job is emitted iff the test-kind set is non-empty or one of
the three boolean test flags is on. -/
def testJobEmitted (c : FormValues) : Bool :=
  !c.tests.isEmpty || c.jestTests || c.rntlTests || c.renderHookTests

/-- The build job identifier is chosen by storage type. -/
def buildJobName (c : FormValues) : String :=
  if c.storageType == .githubRelease then "build-and-release" else "build-and-deploy"

/-- Checkout step (action invocation). -/
def checkoutStep : Step :=
  { name := some "🏗 Checkout repository", act := .uses "actions/checkout@v4" }

/-- Node setup step (action invocation). -/
def setupNodeStep : Step :=
  { name := some "🏗 Setup Node.js", act := .uses "actions/setup-node@v4" }

/-- Cache-directory query step of the caching option. -/
def cacheDirStep (pm : PackageManager) : Step :=
  { name := some (pmCacheDirName pm), id := some (pmCacheDirId pm),
    act := .run (pmCacheDirCmd pm) }

/-- Cache-restore step of the caching option (action invocation). -/
def cacheSetupStep (pm : PackageManager) : Step :=
  { name := some (pmCacheSetupName pm), act := .uses "actions/cache@v3" }

/-- Modelled from the spec: the steps of the `test` job emitted by the
missing `generateWorkflowYaml` (webapp/app/utils/workflowGenerator.ts).
Rule-table order per section 4.1: checkout, node setup, optional cache
pair, install, then one step per selected test kind and per enabled
test flag, all routed through the package-manager command table.  Step
names and run commands follow the generator test-suites and the example
output committed to the repository. -/
def testJobSteps (c : FormValues) : List Step :=
  [checkoutStep, setupNodeStep]
    ++ (if c.caching then [cacheDirStep c.pm, cacheSetupStep c.pm] else [])
    ++ [{ name := some "📦 Install dependencies", act := .run (pmInstall c.pm) }]
    ++ (if c.tests.contains .typescript then
          [{ name := some "🧪 Run TypeScript check", act := .run (pmTsc c.pm) }] else [])
    ++ (if c.tests.contains .eslint then
          [{ name := some "🧹 Run ESLint", act := .run (pmLint c.pm) }] else [])
    ++ (if c.tests.contains .prettier then
          [{ name := some "🎨 Run Prettier check", act := .run (pmFormat c.pm) }] else [])
    ++ (if c.jestTests then
          [{ name := some "🃏 Run Jest Tests", act := .run (pmJest c.pm) }] else [])
    ++ (if c.rntlTests then
          [{ name := some "🧪 Run React Native Testing Library Tests",
             act := .run (pmRntl c.pm) }] else [])
    ++ (if c.renderHookTests then
          [{ name := some "🪝 Run renderHook Tests", act := .run (pmHooks c.pm) }] else [])

/-- Android build step for one selected build type. -/
def androidBuildStep (title profile output : String) : Step :=
  { name := some title,
    act := .run ("export NODE_OPTIONS=--openssl-legacy-provider --max_old_space_size=4096\neas build --platform android --profile "
      ++ profile ++ " --local --non-interactive --output=" ++ output) }

/-- iOS build step contributed by iOS support. -/
def iosBuildStep (title profile output : String) : Step :=
  { name := some title,
    act := .run ("export NODE_OPTIONS=--openssl-legacy-provider --max_old_space_size=4096\neas build --platform ios --profile "
      ++ profile ++ " --local --non-interactive --output=" ++ output) }

/-- Modelled from the spec: artifact-publication steps of the build job,
chosen by storage type — a release-creation action for github-release, a
sync-tool setup plus configuration plus per-artifact upload steps for
the three other storage types. -/
def storagePublishSteps (c : FormValues) : List Step :=
  if c.storageType == .githubRelease then
    [{ name := some "🚀 Create GitHub Release", act := .uses "softprops/action-gh-release@v1" }]
  else
    [{ name := some "🏗 Setup rclone", act := .uses "AnimMouse/setup-rclone@v1" },
     { name := some "📤 Configure cloud storage",
       act := .run "rm -rf ~/.config/rclone\nmkdir -p ~/.config/rclone\nrclone config touch\nrclone ls cloud: --max-depth 1" }]
      ++ (if c.buildTypes.contains .dev then
            [{ name := some "📤 Upload Development APK to cloud storage",
               act := .run "rclone copy ./app-dev.apk cloud:AppBuilds -v" }] else [])
      ++ (if c.buildTypes.contains .prodApk then
            [{ name := some "📤 Upload Production APK to cloud storage",
               act := .run "rclone copy ./app-prod.apk cloud:AppBuilds -v" }] else [])
      ++ (if c.buildTypes.contains .prodAab then
            [{ name := some "📤 Upload Production AAB to cloud storage",
               act := .run "rclone copy ./app-prod.aab cloud:AppBuilds -v" }] else [])

/-- Notification steps: a Slack step, a Discord step, or both, chosen by
the notification channel (default both). -/
def notificationSteps (c : FormValues) : List Step :=
  if c.notifications then
    let nt := ((c.advancedOptions.bind AdvancedOptions.notificationType).getD .both)
    (if nt == .slack || nt == .both then
      [{ name := some "📢 Notify Slack", act := .uses "rtCamp/action-slack-notify@v2" }] else [])
      ++ (if nt == .discord || nt == .both then
        [{ name := some "📢 Notify Discord", act := .uses "Ilshidur/action-discord@0.3.2" }] else [])
  else []

/-- Modelled from the spec: the steps of the build job.  Always-present
steps (checkout, node setup, install plus global EAS-CLI install, EAS
build cache, CLI verification, package.json fix, metro config update,
artifact upload) plus the independently contributed conditional steps
of sections 4.1 (build types, iOS support, storage publication,
publishing, notifications). -/
def buildJobSteps (c : FormValues) : List Step :=
  [checkoutStep, setupNodeStep]
    ++ (if c.caching then [cacheDirStep c.pm, cacheSetupStep c.pm] else [])
    ++ [{ name := some "📦 Install dependencies",
          act := .run (pmInstall c.pm ++ "\n" ++ pmGlobalEas c.pm) }]
    ++ [{ name := some "📱 Setup EAS build cache", act := .uses "actions/cache@v3" },
        { name := some "🔄 Verify EAS CLI installation",
          act := .run "echo \"EAS CLI version:\"\neas --version" },
        { name := some "📋 Fix package.json main entry",
          act := .run "cp package.json package.json.bak\njq .main=node_modules/expo/AppEntry.js package.json > package.json.tmp\nmv package.json.tmp package.json" },
        { name := some "📋 Update metro.config.js for SVG support",
          act := .run "cp metro.config.js metro.config.js.backup\nnode scripts/update-metro-config.js" }]
    ++ (if c.buildTypes.contains .dev then
          [androidBuildStep "📱 Build Development APK" "development" "./app-dev.apk"] else [])
    ++ (if c.buildTypes.contains .prodApk then
          [androidBuildStep "📱 Build Production APK" "production-apk" "./app-prod.apk"] else [])
    ++ (if c.buildTypes.contains .prodAab then
          [androidBuildStep "📱 Build Production AAB" "production" "./app-prod.aab"] else [])
    ++ (if c.iOSSupport && c.buildTypes.contains .dev then
          [iosBuildStep "📱 Build iOS Development" "development" "./app-ios-dev.app"] else [])
    ++ (if c.iOSSupport then
          [iosBuildStep "📱 Build iOS Production" "production" "./app-ios-prod.ipa"] else [])
    ++ storagePublishSteps c
    ++ [{ name := some "📦 Upload build artifacts to GitHub",
          act := .uses "actions/upload-artifact@v4" }]
    ++ (if c.publishToExpo then
          [{ name := some "🚀 Publish to Expo",
             act := .run "eas update --auto --non-interactive" }] else [])
    ++ (if c.publishToStores then
          [{ name := some "📤 Submit to Play Store",
             act := .run "eas submit -p android --latest --non-interactive" }]
            ++ (if c.iOSSupport then
              [{ name := some "📤 Submit to App Store",
                 act := .run "eas submit -p ios --latest --non-interactive" }] else [])
        else [])
    ++ notificationSteps c

/-- Environment/secret names of the compiled document, per storage type
and advanced options (section 6 of the spec). -/
def envNames (c : FormValues) : List String :=
  ["EXPO_TOKEN", "NODE_OPTIONS"]
    ++ (match c.storageType with
        | .githubRelease => []
        | .zohoDrive => ["RCLONE_CONFIG_ZOHODRIVE_TYPE", "RCLONE_CONFIG_ZOHODRIVE_TOKEN",
                         "RCLONE_CONFIG_ZOHODRIVE_DRIVE_ID"]
        | .googleDrive => ["RCLONE_CONFIG_GDRIVE_TYPE", "RCLONE_CONFIG_GDRIVE_TOKEN",
                           "RCLONE_CONFIG_GDRIVE_ROOT_FOLDER_ID"]
        | .custom => ["CLOUD_STORAGE_TYPE", "CLOUD_STORAGE_TOKEN", "CLOUD_STORAGE_ROOT_ID"])
    ++ (if c.iOSSupport then ["EXPO_APPLE_ID", "EXPO_APPLE_PASSWORD", "EXPO_TEAM_ID"] else [])
    ++ (if c.publishToStores then ["GOOGLE_PLAY_SERVICE_ACCOUNT"] else [])
    ++ (if c.notifications then ["SLACK_WEBHOOK", "DISCORD_WEBHOOK"] else [])

/-- Trigger keys of the compiled document. -/
def triggerKeys (c : FormValues) : List String :=
  c.triggers.map fun t =>
    match t with
    | .pushMain => "push"
    | .pullRequest => "pull_request"
    | .manual => "workflow_dispatch"

/-- Modelled from the spec: `generateWorkflowYaml` of
`webapp/app/utils/workflowGenerator.ts` (absent from the provided
sources; reconstructed from sections 4.1 and 6 of the specification,
the generator test-suites, and the example output).  Always emits the
check-skip job; emits the test job iff `testJobEmitted`; always emits
exactly one build job named by storage type, needing `test` when the
test job exists and `check-skip` otherwise.  Total on the whole
configuration domain by construction: empty selections only shrink the
document. -/
def generateWorkflow (c : FormValues) : Workflow :=
  { name := "React Native CI/CD"
    triggers := triggerKeys c
    env := envNames c
    jobs :=
      [("check-skip",
        { steps := [{ name := some "Skip CI check", act := .run "echo Proceeding with workflow" }] })]
      ++ (if testJobEmitted c then
            [("test", { needs := some "check-skip", steps := testJobSteps c })]
          else [])
      ++ [(buildJobName c,
           { needs := some (if testJobEmitted c then "test" else "check-skip"),
             runsOn := if c.iOSSupport then "matrix.platform" else "ubuntu-latest",
             steps := buildJobSteps c })] }

/-! ### Command extractor (`command-extractor.ts`) -/

/-- The per-step extraction both extractor functions perform: keep shell
command steps, drop action invocations; the step label falls back to
`unnamed` for display and to the empty string for categorization. -/
def extractFromSteps (steps : List Step) : List ExtractedCommand :=
  steps.filterMap fun s =>
    match s.act with
    | .run cmd =>
        some { stepName := s.name.getD "unnamed"
               command := cmd
               category := categorizeCommand (s.name.getD "") cmd
               hasGHAExpressions := hasGHAExpressions cmd }
    | .uses _ => none

/-- `extractTestJobCommands`: compile the configuration, look up the
job with identifier `test`, and extract its shell commands (empty list
when the job is absent). -/
def extractTestJobCommands (config : FormValues) : List ExtractedCommand :=
  match (generateWorkflow config).jobs.lookup "test" with
  | none => []
  | some j => extractFromSteps j.steps

/-- Does the string start with the given lead? -/
def strStartsWith (s lead : String) : Bool :=
  leadsWith s.data lead.data

/-- `extractBuildJobCommands`: find the job whose identifier starts with
`build-and-`, extract its shell commands, and skip commands categorized
`build` or `other` unless `includeBuildCommands` is set. -/
def extractBuildJobCommands (config : FormValues)
    (includeBuildCommands : Bool := false) : List ExtractedCommand :=
  match (generateWorkflow config).jobs.find? (fun p => strStartsWith p.1 "build-and-") with
  | none => []
  | some p =>
      (extractFromSteps p.2.steps).filter fun cmd =>
        includeBuildCommands
          || (!(cmd.category == .build) && !(cmd.category == .other))

/-! ### Command signature -/

/-- Lexicographic (code-point) order on strings, the order JavaScript
`Array.prototype.sort` applies to the ASCII signature parts. -/
def strLe (a b : String) : Bool :=
  lexLe a.data b.data
where
  /-- Lexicographic order on character lists. -/
  lexLe : List Char → List Char → Bool
    | [], _ => true
    | _ :: _, [] => false
    | c :: cs, d :: ds =>
      if c == d then lexLe cs ds else decide (c.toNat < d.toNat)

/-- Insert one string into a sorted list. -/
def insertSorted (s : String) : List String → List String
  | [] => [s]
  | t :: ts => if strLe s t then s :: t :: ts else t :: insertSorted s ts

/-- Sort a list of strings (insertion sort, models the JavaScript
`sort()` on the ASCII signature parts). -/
def sortStrings : List String → List String
  | [] => []
  | s :: ss => insertSorted s (sortStrings ss)

/-- `commandSignature`: map the test-phase commands to
`category:trimmed-command`, sort, and join with `|`. -/
def commandSignature (config : FormValues) : String :=
  String.intercalate "|"
    (sortStrings ((extractTestJobCommands config).map fun c =>
      c.category.str ++ ":" ++ jsTrim c.command))

/-! ### Execution-harness result predicate (`command-runner.ts`) -/

/-- `CommandResult` of `command-runner.ts`. -/
structure CommandResult where
  stepName : String
  command : String
  category : Category
  exitCode : Int
  stdout : String
  stderr : String
  durationMs : Nat
  skipped : Bool
  skipReason : Option String := none
deriving DecidableEq

/-- `allPassed`: every non-skipped result exited with code 0. -/
def allPassed (results : List CommandResult) : Bool :=
  (results.filter fun r => !r.skipped).all fun r => r.exitCode == 0

/-! ### Matrix generator (`matrix-generator.ts`) -/

/-- The fixture identifiers the `MatrixEntry` type admits. -/
inductive Fixture
  | yarnApp
  | npmApp
deriving DecidableEq

/-- `MatrixEntry` of `matrix-generator.ts`. -/
structure MatrixEntry where
  name : String
  config : FormValues
  fixture : Fixture
deriving DecidableEq

/-- `fixtureForPkgMgr`: `npm-app` exactly for npm, `yarn-app` in every
other case.  The TypeScript parameter type admits only yarn, npm and
undefined, but the dynamic check is an equality test against npm, so a
pnpm value would also map to `yarn-app`. -/
def fixtureForPkgMgr (pkgMgr : Option PackageManager) : Fixture :=
  if pkgMgr == some .npm then .npmApp else .yarnApp

/-- The literal string of a package manager (used in entry names). -/
def PackageManager.str : PackageManager → String
  | .yarn => "yarn"
  | .npm => "npm"
  | .pnpm => "pnpm"

/-- The literal string of a test kind (used in entry names). -/
def TestKind.str : TestKind → String
  | .typescript => "typescript"
  | .eslint => "eslint"
  | .prettier => "prettier"

/-- The default advanced options of `baseConfig`. -/
def baseAdvanced : AdvancedOptions :=
  { iOSSupport := false, publishToExpo := false, publishToStores := false,
    jestTests := false, rntlTests := false, renderHookTests := false,
    caching := true, notifications := false }

/-- `baseConfig` of `matrix-generator.ts` with the override fields the
call sites use passed explicitly. -/
def baseConfig (packageManager : Option PackageManager) (tests : List TestKind)
    (buildTypes : List BuildType) (advancedOptions : AdvancedOptions) : FormValues :=
  { storageType := .githubRelease
    buildTypes := buildTypes
    tests := tests
    triggers := [.pushMain]
    packageManager := packageManager
    advancedOptions := some advancedOptions }

/-- Advanced options with the three test flags and caching set. -/
def advWith (jest rntl hooks caching : Bool) : AdvancedOptions :=
  { iOSSupport := false, publishToExpo := false, publishToStores := false,
    jestTests := jest, rntlTests := rntl, renderHookTests := hooks,
    caching := caching, notifications := false }

/-- `generatePrMatrix`: the 15 hand-picked PR matrix entries, transcribed
literally from `matrix-generator.ts`. -/
def generatePrMatrix : List MatrixEntry :=
  [{ name := "npm-no-tests",
     config := baseConfig (some .npm) [] [.dev] baseAdvanced, fixture := .npmApp },
   { name := "yarn-no-tests",
     config := baseConfig (some .yarn) [] [.dev] baseAdvanced, fixture := .yarnApp },
   { name := "npm-typescript-only",
     config := baseConfig (some .npm) [.typescript] [.dev] baseAdvanced, fixture := .npmApp },
   { name := "yarn-typescript-only",
     config := baseConfig (some .yarn) [.typescript] [.dev] baseAdvanced, fixture := .yarnApp },
   { name := "npm-all-static",
     config := baseConfig (some .npm) [.typescript, .eslint, .prettier] [.dev] baseAdvanced,
     fixture := .npmApp },
   { name := "yarn-all-static",
     config := baseConfig (some .yarn) [.typescript, .eslint, .prettier] [.dev] baseAdvanced,
     fixture := .yarnApp },
   { name := "npm-jest-only",
     config := baseConfig (some .npm) [] [.dev] (advWith true false false true),
     fixture := .npmApp },
   { name := "yarn-jest-only",
     config := baseConfig (some .yarn) [] [.dev] (advWith true false false true),
     fixture := .yarnApp },
   { name := "npm-all-tests",
     config := baseConfig (some .npm) [.typescript, .eslint, .prettier] [.dev]
       (advWith true true true true),
     fixture := .npmApp },
   { name := "yarn-all-tests",
     config := baseConfig (some .yarn) [.typescript, .eslint, .prettier] [.dev]
       (advWith true true true true),
     fixture := .yarnApp },
   { name := "npm-no-caching",
     config := baseConfig (some .npm) [.typescript, .eslint] [.dev]
       (advWith true false false false),
     fixture := .npmApp },
   { name := "yarn-no-caching",
     config := baseConfig (some .yarn) [.typescript, .eslint] [.dev]
       (advWith true false false false),
     fixture := .yarnApp },
   { name := "npm-eslint-only",
     config := baseConfig (some .npm) [.eslint] [.dev] baseAdvanced, fixture := .npmApp },
   { name := "npm-rntl-hooks",
     config := baseConfig (some .npm) [] [.dev] (advWith false true true true),
     fixture := .npmApp },
   { name := "yarn-prettier-only",
     config := baseConfig (some .yarn) [.prettier] [.dev] baseAdvanced, fixture := .yarnApp }]

/-- `allTestSubsets`: every subset of the three test kinds, generated in
the source order (start from the empty subset, then extend the current
snapshot by each item in turn). -/
def allTestSubsets : List (List TestKind) :=
  [TestKind.typescript, .eslint, .prettier].foldl
    (fun subsets item => subsets ++ subsets.map fun s => s ++ [item]) [[]]

/-- `allJestCombinations`: the 8 combinations of the jest/rntl/hooks
flags, jest as the outer loop. -/
def allJestCombinations : List (Bool × Bool × Bool) :=
  [false, true].flatMap fun j =>
    [false, true].flatMap fun r =>
      [false, true].map fun h => (j, r, h)

/-- One nightly candidate: package manager, test subset, flag
combination, caching value, in loop order. -/
abbrev NightlyCand : Type := PackageManager × List TestKind × (Bool × Bool × Bool) × Bool

/-- The configuration built for one nightly candidate. -/
def nightlyConfig (cand : NightlyCand) : FormValues :=
  baseConfig (some cand.1) cand.2.1 [.dev]
    (advWith cand.2.2.1.1 cand.2.2.1.2.1 cand.2.2.1.2.2 cand.2.2.2)

/-- The entry name built for one nightly candidate: the package manager,
the joined test description (or `no-tests`), and a `-nocache` suffix
when caching is off. -/
def nightlyName (cand : NightlyCand) : String :=
  let parts := cand.2.1.map TestKind.str
    ++ (if cand.2.2.1.1 then ["jest"] else [])
    ++ (if cand.2.2.1.2.1 then ["rntl"] else [])
    ++ (if cand.2.2.1.2.2 then ["hooks"] else [])
  let joined := String.intercalate "-" parts
  let testDesc := if joined == "" then "no-tests" else joined
  cand.1.str ++ "-" ++ testDesc ++ (if cand.2.2.2 then "" else "-nocache")

/-- The matrix entry built for one surviving nightly candidate. -/
def nightlyEntry (cand : NightlyCand) : MatrixEntry :=
  { name := nightlyName cand
    config := nightlyConfig cand
    fixture := fixtureForPkgMgr (some cand.1) }

/-- The full nightly enumeration in loop order: yarn and npm, every test
subset, every flag combination, and both caching values — except that a
candidate with no active test or test flag is enumerated only with
caching on. -/
def nightlyCandidates : List NightlyCand :=
  [PackageManager.yarn, .npm].flatMap fun pm =>
    allTestSubsets.flatMap fun tests =>
      allJestCombinations.flatMap fun jc =>
        (if !tests.isEmpty || jc.1 || jc.2.1 || jc.2.2
         then [true, false] else [true]).map fun caching =>
          (pm, tests, jc, caching)

/-- The deduplication loop of `generateNightlyMatrix`: walk the
enumeration with the set of seen signatures, keep a candidate only when
its command signature has not been seen before, and record its
signature as seen. -/
def nightlyLoop : List NightlyCand → List String → List MatrixEntry
  | [], _ => []
  | cand :: rest, seen =>
    let sig := commandSignature (nightlyConfig cand)
    if seen.contains sig then nightlyLoop rest seen
    else nightlyEntry cand :: nightlyLoop rest (sig :: seen)

/-- `generateNightlyMatrix`: run the dedup loop over the enumeration
with no signature seen yet. -/
def generateNightlyMatrix : List MatrixEntry :=
  nightlyLoop nightlyCandidates []

/-- Split a string at dash characters (helper for decoding names). -/
def splitDashAux : List Char → List Char → List (List Char)
  | [], acc => [acc.reverse]
  | c :: cs, acc =>
    if c == '-' then acc.reverse :: splitDashAux cs []
    else splitDashAux cs (c :: acc)

/-- The dash-separated tokens of a string. -/
def splitDash (s : String) : List String :=
  (splitDashAux s.data []).map fun cs => ⟨cs⟩

/-- Decode a package-manager token of an entry name. -/
def pmOfToken : String → Option PackageManager
  | "yarn" => some .yarn
  | "npm" => some .npm
  | "pnpm" => some .pnpm
  | _ => none

/-- Consume one expected token from the front of a token list. -/
def takeTok (toks : List String) (t : String) : Bool × List String :=
  match toks with
  | tok :: rest => if tok == t then (true, rest) else (false, toks)
  | [] => (false, [])

/-- Decode a nightly entry name back into its candidate tuple: the name
format of `nightlyName` is rigid (package manager, the test kinds and
flags in canonical order or `no-tests`, an optional `-nocache` suffix),
so the candidate is recoverable from the name.  Being a left inverse of
`nightlyName` on the enumerated candidates, it makes the naming
injective there. -/
def decodeNightlyName (s : String) : Option NightlyCand :=
  match splitDash s with
  | [] => none
  | pmTok :: rest =>
    match pmOfToken pmTok with
    | none => none
    | some pm =>
      let caching := !(rest.getLast? == some "nocache")
      let rest2 := if caching then rest else rest.dropLast
      match rest2 with
      | ["no", "tests"] => some (pm, [], (false, false, false), caching)
      | toks =>
        let (hasTs, r1) := takeTok toks "typescript"
        let (hasEs, r2) := takeTok r1 "eslint"
        let (hasPr, r3) := takeTok r2 "prettier"
        let (hasJ, r4) := takeTok r3 "jest"
        let (hasR, r5) := takeTok r4 "rntl"
        let (hasH, r6) := takeTok r5 "hooks"
        if r6.isEmpty then
          some (pm,
            (if hasTs then [TestKind.typescript] else [])
              ++ (if hasEs then [TestKind.eslint] else [])
              ++ (if hasPr then [TestKind.prettier] else []),
            (hasJ, hasR, hasH), caching)
        else none

/-- `generateEasMatrix`: yarn and npm crossed with the three build
profiles, each mapped to its single build type. -/
def generateEasMatrix : List MatrixEntry :=
  [PackageManager.yarn, .npm].flatMap fun pm =>
    [("development", [BuildType.dev]),
     ("production-apk", [BuildType.prodApk]),
     ("production", [BuildType.prodAab])].map fun p =>
      { name := pm.str ++ "-eas-" ++ p.1
        config := baseConfig (some pm) [] p.2 baseAdvanced
        fixture := fixtureForPkgMgr (some pm) }

/-! ### Observations on documents and concrete probe values -/

/-- Does the document contain a job with the given identifier? -/
def hasJob (w : Workflow) (jobId : String) : Bool :=
  (w.jobs.lookup jobId).isSome

/-- The `needs` field of the job with the given identifier, when present. -/
def jobNeedsOf (w : Workflow) (jobId : String) : Option (Option String) :=
  (w.jobs.lookup jobId).map Job.needs

/-- Example scenario (a) of the specification: npm, no tests, push-main
trigger, every test flag off. -/
def npmNoTestsConfig : FormValues :=
  { packageManager := some .npm, storageType := .githubRelease,
    buildTypes := [.dev], tests := [], triggers := [.pushMain],
    advancedOptions := some baseAdvanced }

/-- A configuration whose build-type, test and trigger sets are all
empty and whose optional fields are unset. -/
def emptySelectionsConfig : FormValues :=
  { packageManager := none, storageType := .githubRelease,
    buildTypes := [], tests := [], triggers := [], advancedOptions := none }

/-- Example scenario (b) of the specification: yarn, all three static
test kinds, all three test flags, caching on. -/
def allTestsYarnConfig : FormValues :=
  { packageManager := some .yarn, storageType := .githubRelease,
    buildTypes := [.dev], tests := [.typescript, .eslint, .prettier],
    triggers := [.pushMain],
    advancedOptions := some (advWith true true true true) }

/-- The default configuration of the extractor test-suite. -/
def defaultBuildConfig : FormValues :=
  baseConfig (some .yarn) [] [.dev] baseAdvanced

/-- The cache-dir command the build-job extraction yields first on the
default configuration. -/
def probeBuildCommand : ExtractedCommand :=
  { stepName := "Get yarn cache directory path"
    command := pmCacheDirCmd .yarn
    category := .cacheDir
    hasGHAExpressions := false }

/-- The first entry of the PR matrix. -/
def probePrEntry : MatrixEntry :=
  { name := "npm-no-tests"
    config := baseConfig (some .npm) [] [.dev] baseAdvanced
    fixture := .npmApp }

end CICD

namespace CICD

/-! ### Generator structure lemmas -/

/-- Looking up the `test` job reduces to the emission condition. -/
theorem lookup_test_eq (c : FormValues) :
    (generateWorkflow c).jobs.lookup "test"
      = if testJobEmitted c then
          some { runsOn := "ubuntu-latest", needs := some "check-skip", steps := testJobSteps c }
        else none := by
  simp only [generateWorkflow, buildJobName]
  cases h : testJobEmitted c <;> cases hs : c.storageType <;> simp [List.lookup]

/-- Looking up the build job always succeeds and exposes its `needs`. -/
theorem lookup_build_eq (c : FormValues) :
    (generateWorkflow c).jobs.lookup (buildJobName c)
      = some { runsOn := if c.iOSSupport then "matrix.platform" else "ubuntu-latest",
               needs := some (if testJobEmitted c then "test" else "check-skip"),
               steps := buildJobSteps c } := by
  simp only [generateWorkflow, buildJobName]
  cases h : testJobEmitted c <;> cases hs : c.storageType <;> simp [List.lookup]

/-- A `build-and-release` job is present exactly for github-release. -/
theorem lookup_release_eq (c : FormValues) :
    ((generateWorkflow c).jobs.lookup "build-and-release").isSome
      = (c.storageType == .githubRelease) := by
  simp only [generateWorkflow, buildJobName]
  cases h : testJobEmitted c <;> cases hs : c.storageType <;> simp [List.lookup]

/-- A `build-and-deploy` job is present exactly for the other storage
types. -/
theorem lookup_deploy_eq (c : FormValues) :
    ((generateWorkflow c).jobs.lookup "build-and-deploy").isSome
      = (c.storageType != .githubRelease) := by
  simp only [generateWorkflow, buildJobName]
  cases h : testJobEmitted c <;> cases hs : c.storageType <;> simp [List.lookup]

/-- The emission condition as a proposition over the configuration. -/
theorem testJobEmitted_true_iff (c : FormValues) :
    testJobEmitted c = true
      ↔ (c.tests ≠ [] ∨ c.jestTests = true ∨ c.rntlTests = true
          ∨ c.renderHookTests = true) := by
  simp [testJobEmitted, List.isEmpty_iff, or_assoc]

/-- Every job of every compiled document has a non-empty step list. -/
theorem jobs_nonempty_steps (c : FormValues) :
    ((generateWorkflow c).jobs.all fun p => !p.2.steps.isEmpty) = true := by
  simp only [generateWorkflow, buildJobName, testJobSteps, buildJobSteps]
  cases h : testJobEmitted c <;> cases hs : c.storageType <;> simp

/-- The check-skip job is present in every compiled document. -/
theorem check_skip_present (c : FormValues) :
    ((generateWorkflow c).jobs.lookup "check-skip").isSome = true := by
  simp only [generateWorkflow]
  cases h : testJobEmitted c <;> simp [List.lookup]

end CICD

namespace CICD

/-! ### Nightly loop invariant -/

/-- Invariant of the dedup loop: the signatures of the produced entries
are duplicate-free, none of them was seen before, and every entry is
the image of a processed candidate. -/
theorem nightlyLoop_inv (cands : List NightlyCand) (seen : List String)
    (hsub : ∀ x ∈ cands, x ∈ nightlyCandidates) :
    ((nightlyLoop cands seen).map fun e => commandSignature e.config).Nodup
      ∧ (∀ s ∈ (nightlyLoop cands seen).map fun e => commandSignature e.config, s ∉ seen)
      ∧ ∀ e ∈ nightlyLoop cands seen,
          ∃ cand, cand ∈ nightlyCandidates ∧ e = nightlyEntry cand := by
  induction cands generalizing seen with
  | nil => refine ⟨?_, ?_, ?_⟩ <;> simp [nightlyLoop]
  | cons c cs ih =>
    have hloop : nightlyLoop (c :: cs) seen
        = if seen.contains (commandSignature (nightlyConfig c))
          then nightlyLoop cs seen
          else nightlyEntry c :: nightlyLoop cs (commandSignature (nightlyConfig c) :: seen) :=
      rfl
    rw [hloop]
    have hsub' : ∀ x ∈ cs, x ∈ nightlyCandidates :=
      fun x hx => hsub x (List.mem_cons_of_mem c hx)
    by_cases h : seen.contains (commandSignature (nightlyConfig c)) = true
    · rw [if_pos h]
      exact ih seen hsub'
    · rw [if_neg h]
      have hnm : commandSignature (nightlyConfig c) ∉ seen := by
        have hf : seen.contains (commandSignature (nightlyConfig c)) = false :=
          Bool.eq_false_iff.mpr h
        simpa using hf
      obtain ⟨ih1, ih2, ih3⟩ := ih (commandSignature (nightlyConfig c) :: seen) hsub'
      refine ⟨?_, ?_, ?_⟩
      · refine List.nodup_cons.mpr ⟨?_, ih1⟩
        intro hmem
        exact (ih2 _ hmem) (List.mem_cons_self _ seen)
      · intro s hs
        rcases List.mem_cons.mp hs with hhead | htail
        · exact hhead ▸ hnm
        · exact fun hseen => (ih2 s htail) (List.mem_cons_of_mem _ hseen)
      · intro e he
        rcases List.mem_cons.mp he with hhead | htail
        · exact ⟨c, hsub c (List.mem_cons_self c cs), hhead⟩
        · exact ih3 e htail

/-- Every nightly matrix entry is the image of an enumerated candidate. -/
theorem nightly_mem_entry :
    ∀ e ∈ generateNightlyMatrix, ∃ cand, cand ∈ nightlyCandidates ∧ e = nightlyEntry cand := by
  simp only [generateNightlyMatrix]
  exact (nightlyLoop_inv nightlyCandidates [] (fun x hx => hx)).2.2

/-- The signatures of the nightly matrix entries are duplicate-free. -/
theorem nightly_sigs_nodup :
    (generateNightlyMatrix.map fun e => commandSignature e.config).Nodup := by
  simp only [generateNightlyMatrix]
  exact (nightlyLoop_inv nightlyCandidates [] (fun x hx => hx)).1

end CICD

namespace CICD

/-! ### Claim theorems -/

/-- Claim C1: for every configuration in the declared domain, the
compiled document contains a `test` job iff the test-kind set is
non-empty or one of the flags jestTests, rntlTests, renderHookTests is
true; the build job needs `test` when the test job exists and
`check-skip` otherwise; in particular the npm configuration with no
tests, no test flags and the push-main trigger compiles to a document
with no test job and a build job needing `check-skip`. -/
theorem test_job_emission_and_needs :
    ∀ c : FormValues,
      (hasJob (generateWorkflow c) "test" = true
        ↔ (c.tests ≠ [] ∨ c.jestTests = true ∨ c.rntlTests = true
            ∨ c.renderHookTests = true))
      ∧ jobNeedsOf (generateWorkflow c) (buildJobName c)
          = some (some (if testJobEmitted c then "test" else "check-skip"))
      ∧ hasJob (generateWorkflow npmNoTestsConfig) "test" = false
      ∧ jobNeedsOf (generateWorkflow npmNoTestsConfig) "build-and-release"
          = some (some "check-skip") := by
  intro c
  refine ⟨?_, ?_, by decide, by decide⟩
  · rw [← testJobEmitted_true_iff]
    unfold hasJob
    rw [lookup_test_eq]
    cases h : testJobEmitted c <;> simp [h]
  · unfold jobNeedsOf
    rw [lookup_build_eq]
    rfl

/-- Claim C2: every compiled document contains exactly one of the job
identifiers build-and-release and build-and-deploy — the former exactly
when the storage type is github-release. -/
theorem build_job_mutual_exclusivity :
    ∀ c : FormValues,
      (hasJob (generateWorkflow c) "build-and-release" = true
        ↔ c.storageType = .githubRelease)
      ∧ (hasJob (generateWorkflow c) "build-and-deploy" = true
        ↔ c.storageType ≠ .githubRelease) := by
  intro c
  unfold hasJob
  rw [lookup_release_eq, lookup_deploy_eq]
  constructor
  · simp
  · simp [bne_iff_ne]

/-- Claim C3: the command signature does not depend on the storage axis —
changing only `storageType` leaves `commandSignature` unchanged. -/
theorem signature_storage_invariance :
    ∀ (c : FormValues) (s : StorageType),
      commandSignature { c with storageType := s } = commandSignature c := by
  intro c s
  unfold commandSignature extractTestJobCommands
  rw [lookup_test_eq, lookup_test_eq]
  have h1 : testJobEmitted { c with storageType := s } = testJobEmitted c := rfl
  have h2 : testJobSteps { c with storageType := s } = testJobSteps c := rfl
  rw [h1, h2]

/-- Claim C5 evaluation: `generateEasMatrix` returns 6 entries — yarn and
npm crossed with the three profiles, pnpm absent — each with a
build-type list of length 1; its own test-suite instead asserts 9
entries with 3 per package manager including pnpm. -/
theorem eas_matrix_evaluation :
    generateEasMatrix.length = 6
      ∧ (generateEasMatrix.map fun e => e.config.packageManager)
          = [some .yarn, some .yarn, some .yarn, some .npm, some .npm, some .npm]
      ∧ (generateEasMatrix.all fun e => e.config.buildTypes.length == 1) = true := by
  refine ⟨by decide, by decide, by decide⟩

/-- Claim C6: the yarn configuration with all three static test kinds,
all three test flags and caching yields exactly 8 test-phase commands,
one each of cache-dir, install, typecheck, lint, format, jest, rntl and
hooks, in that order. -/
theorem all_tests_yarn_extraction :
    (extractTestJobCommands allTestsYarnConfig).length = 8
      ∧ ((extractTestJobCommands allTestsYarnConfig).map fun c => c.category)
          = [.cacheDir, .install, .typecheck, .lint, .format, .jest, .rntl, .hooks] := by
  refine ⟨by decide, by decide⟩

/-- Claim C9: `allPassed` returns true iff every non-skipped result
exited with code 0; skipped results never make it false. -/
theorem allPassed_iff_nonskipped_zero :
    ∀ results : List CommandResult,
      allPassed results = true ↔ ∀ r ∈ results, r.skipped = false → r.exitCode = 0 := by
  intro results
  simp [allPassed, List.all_eq_true, List.mem_filter, Bool.not_eq_true', and_imp,
    or_iff_not_imp_left, Bool.not_eq_true]

end CICD

namespace CICD

/-- Claim C7: compilation is total on the declared domain — every
configuration, including those with empty build-type, test or trigger
lists, compiles to a document with a non-empty job map in which every
job has a non-empty step list; missing selections only remove jobs, as
on the all-empty configuration, which still has its check-skip and
build jobs but no test job. -/
theorem compilation_total_on_domain :
    ∀ c : FormValues,
      (generateWorkflow c).jobs.isEmpty = false
      ∧ ((generateWorkflow c).jobs.all fun p => !p.2.steps.isEmpty) = true
      ∧ hasJob (generateWorkflow c) "check-skip" = true
      ∧ hasJob (generateWorkflow emptySelectionsConfig) "build-and-release" = true
      ∧ hasJob (generateWorkflow emptySelectionsConfig) "test" = false := by
  intro c
  refine ⟨?_, jobs_nonempty_steps c, check_skip_present c, by decide, by decide⟩
  simp only [generateWorkflow]
  rfl

/-- Claim C8: build-command extraction without `includeBuildCommands`
never returns a command categorized `build` or `other`; those
categories can appear only when the flag is set. -/
theorem build_extraction_excludes_build_and_other :
    ∀ (c : FormValues) (cmd : ExtractedCommand),
      cmd ∈ extractBuildJobCommands c false
        → cmd.category ≠ .build ∧ cmd.category ≠ .other := by
  intro c cmd hmem
  unfold extractBuildJobCommands at hmem
  split at hmem
  · simp at hmem
  · have hp := (List.mem_filter.mp hmem).2
    simp only [Bool.false_or, Bool.and_eq_true, Bool.not_eq_true'] at hp
    exact ⟨by simpa using hp.1, by simpa using hp.2⟩

/-- Witness for C8: the cache-dir command extracted from the build job
of the default configuration is neither `build` nor `other`. -/
theorem build_extraction_excludes_witness :
    probeBuildCommand.category ≠ .build ∧ probeBuildCommand.category ≠ .other :=
  build_extraction_excludes_build_and_other defaultBuildConfig probeBuildCommand (by decide)

end CICD

namespace CICD

/-- Claim C10: every entry of the three generators carries fixture
npm-app exactly when its configuration names npm and yarn-app in every
other case (unset included); the fixture type admits no other value, so
a pnpm value would also be bound to yarn-app. -/
theorem fixture_follows_package_manager :
    (∀ e ∈ generatePrMatrix, e.fixture = fixtureForPkgMgr e.config.packageManager)
      ∧ (∀ e ∈ generateNightlyMatrix, e.fixture = fixtureForPkgMgr e.config.packageManager)
      ∧ (∀ e ∈ generateEasMatrix, e.fixture = fixtureForPkgMgr e.config.packageManager)
      ∧ fixtureForPkgMgr (some .pnpm) = .yarnApp
      ∧ fixtureForPkgMgr none = .yarnApp
      ∧ ∀ f : Fixture, f = .yarnApp ∨ f = .npmApp := by
  refine ⟨by decide, ?_, by decide, rfl, rfl, ?_⟩
  · intro e he
    obtain ⟨cand, -, rfl⟩ := nightly_mem_entry e he
    rfl
  · intro f
    cases f
    · exact Or.inl rfl
    · exact Or.inr rfl

/-- Witness for C10: the first PR-matrix entry (npm) is bound to the
npm-app fixture by the rule. -/
theorem fixture_follows_witness :
    probePrEntry.fixture = fixtureForPkgMgr probePrEntry.config.packageManager :=
  fixture_follows_package_manager.1 probePrEntry (by decide)

end CICD

namespace CICD

set_option maxRecDepth 10000 in
/-- Claim C4: in the exhaustive-with-dedup nightly matrix, entry names
are pairwise distinct and no two entries have equal command signatures.
Signature distinctness is the loop invariant of the dedup fold; name
distinctness follows because `decodeNightlyName` inverts the naming on
every enumerated candidate, making names injective there, and every
entry is the image of a candidate. -/
theorem nightly_matrix_uniqueness :
    (generateNightlyMatrix.map fun e => e.name).Nodup
      ∧ (generateNightlyMatrix.map fun e => commandSignature e.config).Nodup := by
  have hsigs := nightly_sigs_nodup
  refine ⟨?_, hsigs⟩
  have hpairsig : generateNightlyMatrix.Pairwise
      fun a b => commandSignature a.config ≠ commandSignature b.config :=
    List.pairwise_map.mp hsigs
  have hdec : ∀ cand ∈ nightlyCandidates,
      decodeNightlyName (nightlyName cand) = some cand := by decide
  have hinj : ∀ ca ∈ nightlyCandidates, ∀ cb ∈ nightlyCandidates,
      nightlyName ca = nightlyName cb → ca = cb := by
    intro ca hca cb hcb hname
    have e1 := hdec ca hca
    have e2 := hdec cb hcb
    rw [hname] at e1
    exact Option.some.inj (e1.symm.trans e2)
  refine List.pairwise_map.mpr (List.Pairwise.imp_of_mem ?_ hpairsig)
  intro a b ha hb hsigne hnameeq
  obtain ⟨ca, hca, rfl⟩ := nightly_mem_entry a ha
  obtain ⟨cb, hcb, rfl⟩ := nightly_mem_entry b hb
  have hcc : ca = cb := hinj ca hca cb hcb hnameeq
  subst hcc
  exact hsigne rfl

end CICD
